import Mathlib

/-!
Verification of the severity-classification and aggregation core of the
voc-hotel-app repository (`src/services/property_service.py`, with the
windowed-threshold help text of `dash_app.py`).

The Python service is embedded shallowly:
* warehouse rows become Lean structures (`Issue`, `Hotel`, `Review`);
* Python floats become `ℚ` (the source only reads, compares, multiplies
  and divides these values; decimal literals are exact in `ℚ`);
* the database boundary becomes an explicit `DbResult` argument: the
  Python `database_service.query` either returns rows, returns `None`
  (connection failure) or the surrounding code raises and is caught;
* each service method becomes a total Lean function on those inputs.

Python-specific semantics that the embedding reproduces:
* `dict` insertion order: grouping maps are association lists where a new
  key is appended at the end and an existing key keeps its position;
* `max(xs, key=f)` returns the first element with maximal key (a later
  element replaces the current one only when strictly greater);
* `sorted` is a stable sort; `sorted(reverse=True)` is a stable
  descending sort;
* `int(x)` truncates toward zero; `round(x)` rounds half to even;
* `s.lower().replace(' ', '-').replace(',', '')` is a per-character
  transformation because both patterns are single characters.
-/

/-- Lowercases a string character by character (Python `str.lower` on the
ASCII data used by this app). -/
def lowerStr (s : String) : String := String.mk (s.data.map Char.toLower)

/-- Normalized property id, from the source expression
`location.lower().replace(' ', '-').replace(',', '')`. -/
def toPropertyId (location : String) : String :=
  String.mk (location.data.filterMap fun c =>
    let l := c.toLower
    if l = ' ' then some '-' else if l = ',' then none else some l)

/-- Python `str.strip`: drop leading and trailing whitespace. -/
def stripStr (s : String) : String :=
  String.mk (((s.data.dropWhile Char.isWhitespace).reverse.dropWhile
    Char.isWhitespace).reverse)

/-- Splits a character list on commas (Python `str.split(',')`). -/
def splitCommaAux : List Char → List Char → List (List Char)
  | [], cur => [cur.reverse]
  | c :: t, cur => if c = ',' then cur.reverse :: splitCommaAux t [] else splitCommaAux t (c :: cur)

/-- Python `location.split(',')` as a list of strings. -/
def splitComma (s : String) : List String :=
  (splitCommaAux s.data []).map String.mk

/-- Source `PropertyService._parse_location`: city is the stripped text
before the first comma; state is the stripped text between the first and
second comma, or the empty string when there is no comma. -/
def parseLocation (location : String) : String × String :=
  let parts := if location.data.contains ',' then splitComma location else [location]
  (stripStr (parts.headD ""),
   if 1 < parts.length then stripStr (parts.getD 1 "") else "")

/-- Inserts `a` after every element `b` with `le b a` (helper for the
stable sort). -/
def insertLe {α : Type} (le : α → α → Bool) (a : α) : List α → List α
  | [] => [a]
  | b :: t => if le b a then b :: insertLe le a t else a :: b :: t

/-- Stable sort by insertion from the left; elements comparing equal keep
their original relative order, as Python `sorted` guarantees. -/
def stableSort {α : Type} (le : α → α → Bool) (l : List α) : List α :=
  l.foldl (fun acc a => insertLe le a acc) []

/-- Python `sorted` on a list of strings (lexicographic byte order). -/
def sortStrings (l : List String) : List String :=
  stableSort (fun a b => decide (a ≤ b)) l

/-- First-occurrence deduplication; `sortStrings (distinctList xs)` is the
Python `sorted(set(xs))` and `(distinctList xs).length` is `len(set(xs))`. -/
def distinctList (l : List String) : List String :=
  l.foldl (fun acc a => if acc.contains a then acc else acc ++ [a]) []

/-- Python `int(x)`: truncation toward zero. -/
def truncQ (q : ℚ) : ℤ := if 0 ≤ q then Rat.floor q else -Rat.floor (-q)

/-- Python `round(x)`: round to the nearest integer, halves to even. -/
def pyRound (q : ℚ) : ℤ :=
  let f := Rat.floor q
  if q - f < 1/2 then f
  else if (1 : ℚ)/2 < q - f then f + 1
  else if f % 2 = 0 then f else f + 1

/-- Python `round(x, 1)`: round to one decimal place, halves to even. -/
def round1 (q : ℚ) : ℚ := (pyRound (q * 10) : ℚ) / 10

/-- Structured narrative payload parsed by `from_json` in the issues query
(`response_data`); every field may be NULL upstream. -/
structure ResponseData where
  aspect : Option String
  issue_summary : Option String
  potential_root_cause : Option String
  impact : Option String
  recommended_action : Option String
deriving DecidableEq

/-- One row of `open_issues_diagnosis` as selected by
`PropertyService._get_issues_data`. -/
structure Issue where
  location : String
  aspect : String
  severity : String
  status : String
  open_reason : String
  nms_open : ℚ
  volume_open : ℕ
  opened_at : String
  response_data : Option ResponseData
deriving DecidableEq

/-- One row of `hotel_locations` as selected by
`PropertyService._get_hotel_locations`. -/
structure Hotel where
  location : String
  latitude : ℚ
  longitude : ℚ
deriving DecidableEq

/-- Outcome of one `database_service.query` call: rows, `None` on
connection failure (the Python client catches its own errors and returns
`None`), or an exception raised while processing. -/
inductive DbResult (α : Type) where
  | ok (rows : α)
  | connFailed
  | errored
deriving DecidableEq

/-- Source `PropertyService._get_placeholder_data`: the fixed dataset
substituted when the issues query fails. -/
def placeholder_data : List Issue :=
  [{ location := "Denver, CO", aspect := "cleanliness", severity := "Critical", status := "Open",
     open_reason := "cleanliness_complaints", nms_open := 0.48, opened_at := "2024-01-15",
     volume_open := 0,
     response_data := some
       { aspect := some "cleanliness",
         issue_summary := some "Multiple guests reported unclean rooms with dust, hair, and bathroom issues. 15 negative reviews in the past 7 days.",
         potential_root_cause := some "Understaffing during peak season and inadequate quality control checks.",
         impact := some "48% of reviews mention cleanliness issues, affecting overall rating and guest satisfaction.",
         recommended_action := some "Implement daily housekeeping quality audits and hire 2 additional staff members." } },
   { location := "Denver, CO", aspect := "Staff Service", severity := "Good", status := "Open",
     open_reason := "service_feedback", nms_open := 0.012, opened_at := "2024-01-15",
     volume_open := 0,
     response_data := some
       { aspect := some "Staff Service",
         issue_summary := some "Generally positive feedback with occasional slow response times.",
         potential_root_cause := some "Peak hour coverage gaps.",
         impact := some "1.2% negative mentions, minimal impact on ratings.",
         recommended_action := some "Adjust staff scheduling for peak hours." } },
   { location := "Miami, FL", aspect := "Staff Service", severity := "Warning", status := "Open",
     open_reason := "service_delays", nms_open := 0.032, opened_at := "2024-01-14",
     volume_open := 0,
     response_data := some
       { aspect := some "Staff Service",
         issue_summary := some "Guests experiencing delays at check-in and slow response to requests. 12 complaints in past week.",
         potential_root_cause := some "Insufficient front desk coverage during high occupancy periods.",
         impact := some "3.2% of reviews cite service delays, impacting guest experience scores.",
         recommended_action := some "Add front desk staff during peak hours and implement request tracking system." } },
   { location := "Miami, FL", aspect := "Amenities", severity := "Good", status := "Open",
     open_reason := "amenity_concerns", nms_open := 0.021, opened_at := "2024-01-14",
     volume_open := 0,
     response_data := some
       { aspect := some "Amenities",
         issue_summary := some "Pool and gym equipment mentioned in 8 reviews as needing maintenance.",
         potential_root_cause := some "Delayed maintenance schedule.",
         impact := some "2.1% negative mentions about amenities.",
         recommended_action := some "Schedule immediate equipment inspection and repairs." } },
   { location := "Chicago, IL", aspect := "noise_ambience", severity := "Warning", status := "Open",
     open_reason := "noise_complaints", nms_open := 0.031, opened_at := "2024-01-13",
     volume_open := 0,
     response_data := some
       { aspect := some "noise_ambience",
         issue_summary := some "Guests consistently report noise disturbances from the nearby street, with multiple reviews citing this specific issue across different dates and booking channels.",
         potential_root_cause := some "The hotel\x27s proximity to a busy street generates ongoing noise pollution that penetrates guest rooms. Inadequate soundproofing or window insulation may be allowing street noise to disrupt the indoor environment.",
         impact := some "Street noise negatively affects guest comfort and sleep quality, leading to reduced satisfaction as evidenced by moderate star ratings.",
         recommended_action := some "Install or upgrade soundproofing materials, particularly around windows facing the street. Consider offering rooms on higher floors or away from street-facing sides to noise-sensitive guests." } },
   { location := "Chicago, IL", aspect := "Room Cleanliness", severity := "Good", status := "Open",
     open_reason := "cleanliness_feedback", nms_open := 0.015, opened_at := "2024-01-13",
     volume_open := 0,
     response_data := some
       { aspect := some "Room Cleanliness",
         issue_summary := some "Generally clean with minor issues in 5 reviews.",
         potential_root_cause := some "Minor oversights in quality checks.",
         impact := some "1.5% mention cleanliness, mostly positive.",
         recommended_action := some "Continue current practices with spot checks." } },
   { location := "Austin, TX", aspect := "WiFi Connectivity", severity := "Critical", status := "Open",
     open_reason := "connectivity_issues", nms_open := 0.051, opened_at := "2024-01-12",
     volume_open := 0,
     response_data := some
       { aspect := some "WiFi Connectivity",
         issue_summary := some "Frequent disconnections and slow speeds reported by 18 guests. Business travelers particularly affected.",
         potential_root_cause := some "Outdated router equipment and insufficient bandwidth for current occupancy.",
         impact := some "5.1% of reviews cite WiFi issues, highest complaint category affecting business traveler satisfaction.",
         recommended_action := some "Immediate router upgrade and bandwidth increase. Consider backup internet provider." } },
   { location := "Austin, TX", aspect := "Amenities", severity := "Good", status := "Open",
     open_reason := "amenity_requests", nms_open := 0.020, opened_at := "2024-01-12",
     volume_open := 0,
     response_data := some
       { aspect := some "Amenities",
         issue_summary := some "Requests for upgraded fitness equipment in 7 reviews.",
         potential_root_cause := some "Aging gym equipment.",
         impact := some "2.0% mention amenities, mostly suggestions.",
         recommended_action := some "Budget for gym equipment refresh in Q2." } },
   { location := "Seattle, WA", aspect := "Room Cleanliness", severity := "Excellent", status := "Open",
     open_reason := "minor_feedback", nms_open := 0.008, opened_at := "2024-01-11",
     volume_open := 0,
     response_data := some
       { aspect := some "Room Cleanliness",
         issue_summary := some "Excellent cleanliness with only 2 minor mentions, both positive.",
         potential_root_cause := some "N/A - performing well.",
         impact := some "0.8% mention cleanliness, all positive feedback.",
         recommended_action := some "Maintain current standards and recognize housekeeping team." } },
   { location := "Seattle, WA", aspect := "Amenities", severity := "Good", status := "Open",
     open_reason := "amenity_feedback", nms_open := 0.011, opened_at := "2024-01-11",
     volume_open := 0,
     response_data := some
       { aspect := some "Amenities",
         issue_summary := some "Generally satisfied, 3 reviews mention amenities positively.",
         potential_root_cause := some "N/A - performing well.",
         impact := some "1.1% mention amenities, mostly positive.",
         recommended_action := some "Continue current amenity offerings." } }]

/-- Source `PropertyService._get_placeholder_hotel_locations`. -/
def placeholder_hotel_locations : List Hotel :=
  [{ location := "Denver, CO", latitude := 39.7392, longitude := -104.9903 },
   { location := "Miami, FL", latitude := 25.7617, longitude := -80.1918 },
   { location := "Chicago, IL", latitude := 41.8781, longitude := -87.6298 },
   { location := "Austin, TX", latitude := 30.2672, longitude := -97.7431 },
   { location := "Seattle, WA", latitude := 47.6062, longitude := -122.3321 }]

/-- Source `PropertyService._get_issues_data` after the SQL round trip: on
rows it returns them, on a `None` reply or a raised exception it falls
back to the placeholder dataset. The `days` window is applied inside the
SQL text (relative to the latest `opened_at`), so it does not appear in
the row-processing logic embodied here. -/
def get_issues_data (db : DbResult (List Issue)) : List Issue :=
  match db with
  | .ok rows => rows
  | .connFailed => placeholder_data
  | .errored => placeholder_data

/-- Source `PropertyService._get_hotel_locations`: placeholder fallback on
`None` reply or exception. -/
def get_hotel_locations (db : DbResult (List Hotel)) : List Hotel :=
  match db with
  | .ok rows => rows
  | .connFailed => placeholder_hotel_locations
  | .errored => placeholder_hotel_locations

/-- Per-aspect classified entry (`{'name', 'percentage', 'status'}` in
`get_all_properties` / `get_property_details`). -/
structure AspectStatus where
  name : String
  percentage : ℚ
  status : String
deriving DecidableEq

/-- One step of the `aspects_map` dict update: a new aspect is appended;
an existing aspect is replaced in place when the incoming `nms_open` is
strictly greater ("worst observation wins"). -/
def upsertAspect (m : List AspectStatus) (a : AspectStatus) : List AspectStatus :=
  if m.any (fun b => b.name = a.name) then
    m.map (fun b => if b.name = a.name ∧ b.percentage < a.percentage then a else b)
  else m ++ [a]

/-- Aggregates the `aspects_map` loop shared by `get_all_properties` and
`get_property_details`: severity is read from the row and lowercased. -/
def buildAspects (property_issues : List Issue) : List AspectStatus :=
  property_issues.foldl (fun m issue =>
    upsertAspect m { name := issue.aspect, percentage := issue.nms_open,
                     status := lowerStr issue.severity }) []

/-- Python `max(xs, key=...)` over a nonempty prefix: keeps the current
element unless a later one is strictly greater. -/
def firstMaxAux (f : Issue → ℚ) : Issue → List Issue → Issue
  | a, [] => a
  | a, b :: t => firstMaxAux f (if f a < f b then b else a) t

/-- Python `max(property_issues, key=lambda x: x['nms_open'])`. -/
def firstMaxByNms : List Issue → Option Issue
  | [] => none
  | a :: t => some (firstMaxAux (fun i => i.nms_open) a t)

/-- One element of the `get_all_properties` result list. -/
structure PropertyView where
  property_id : String
  name : String
  city : String
  state : String
  latitude : ℚ
  longitude : ℚ
  aspects : List AspectStatus
  reviews_count : ℕ
  top_theme : String
  has_issues : Bool
deriving DecidableEq

/-- Builds the listing entry of one hotel in `get_all_properties`; the
Python `issues_map` groups issues by location preserving encounter order,
so the per-hotel slice is exactly the order-preserving filter. -/
def propertyView (issues : List Issue) (hotel : Hotel) : PropertyView :=
  let location := hotel.location
  let parsed := parseLocation location
  let property_issues := issues.filter (fun i => i.location = location)
  match firstMaxByNms property_issues with
  | some top_issue =>
      { property_id := toPropertyId location, name := location,
        city := parsed.1, state := parsed.2,
        latitude := hotel.latitude, longitude := hotel.longitude,
        aspects := buildAspects property_issues,
        reviews_count := property_issues.length,
        top_theme := top_issue.open_reason,
        has_issues := true }
  | none =>
      { property_id := toPropertyId location, name := location,
        city := parsed.1, state := parsed.2,
        latitude := hotel.latitude, longitude := hotel.longitude,
        aspects := [], reviews_count := 0,
        top_theme := "no_issues", has_issues := false }

/-- Source `PropertyService.get_all_properties`: one entry per row of the
hotel directory, merged with the issue rows. -/
def get_all_properties (hotels : List Hotel) (issues : List Issue) : List PropertyView :=
  hotels.map (propertyView issues)

/-- Result shape of `get_property_details`. -/
structure PropertyDetails where
  property_id : String
  name : String
  city : String
  state : String
  aspects : List AspectStatus
  reviews_count : ℕ
  avg_rating : ℚ
  top_theme : String
  issues : List Issue
deriving DecidableEq

/-- Source `PropertyService.get_property_details`: filters the issue rows
by normalized location and returns `None` when nothing matches; the
review count and rating come from a separate reviews-table query, passed
here as `review_stats`. -/
def get_property_details (issues : List Issue) (review_stats : ℕ × ℚ)
    (property_id : String) : Option PropertyDetails :=
  let property_issues := issues.filter (fun i => toPropertyId i.location = property_id)
  match property_issues with
  | [] => none
  | first :: rest =>
      let top_issue := firstMaxAux (fun i => i.nms_open) first rest
      let location := first.location
      let parsed := parseLocation location
      some { property_id := property_id, name := location,
             city := parsed.1, state := parsed.2,
             aspects := buildAspects property_issues,
             reviews_count := review_stats.1, avg_rating := review_stats.2,
             top_theme := top_issue.open_reason,
             issues := property_issues }

/-- One flattened row of `get_flagged_properties`. -/
structure FlaggedRow where
  property : String
  property_id : String
  aspect : String
  negative_percentage : ℚ
  status : String
deriving DecidableEq

/-- Source `PropertyService.get_flagged_properties`: keeps the issues
whose lowercased severity is critical or warning, one row per issue. -/
def get_flagged_properties (issues : List Issue) : List FlaggedRow :=
  issues.foldl (fun acc issue =>
    let severity := lowerStr issue.severity
    if severity = "critical" ∨ severity = "warning" then
      acc ++ [{ property := issue.location,
                property_id := toPropertyId issue.location,
                aspect := issue.aspect,
                negative_percentage := issue.nms_open,
                status := severity }]
    else acc) []

/-- Aspect entry inside a `get_flagged_properties_grouped` group. -/
structure FlaggedAspect where
  aspect : String
  negative_percentage : ℚ
  status : String
deriving DecidableEq

/-- One property group of `get_flagged_properties_grouped`. -/
structure FlaggedGroup where
  property : String
  property_id : String
  aspects : List FlaggedAspect
  severity : String
deriving DecidableEq

/-- One loop iteration of `get_flagged_properties_grouped`: ignore
non-flagged rows; create the group with severity `"warning"` on first
sight of a property; append the aspect; upgrade the group severity to
`"critical"` when the row is critical. -/
def addFlaggedIssue (gs : List FlaggedGroup) (issue : Issue) : List FlaggedGroup :=
  let severity := lowerStr issue.severity
  if severity = "critical" ∨ severity = "warning" then
    let prop_id := toPropertyId issue.location
    let asp : FlaggedAspect :=
      { aspect := issue.aspect, negative_percentage := issue.nms_open, status := severity }
    if gs.any (fun g => g.property_id = prop_id) then
      gs.map (fun g =>
        if g.property_id = prop_id then
          { g with aspects := g.aspects ++ [asp],
                   severity := if severity = "critical" then "critical" else g.severity }
        else g)
    else
      gs ++ [{ property := issue.location, property_id := prop_id, aspects := [asp],
               severity := if severity = "critical" then "critical" else "warning" }]
  else gs

/-- Source `PropertyService.get_flagged_properties_grouped` (dict values
in insertion order). -/
def get_flagged_properties_grouped (issues : List Issue) : List FlaggedGroup :=
  issues.foldl addFlaggedIssue []

/-- Result shape of `get_healthy_properties_grouped`. -/
structure HealthyGrouped where
  healthy : List PropertyView
  no_reviews : List PropertyView
deriving DecidableEq

/-- Set of flagged locations computed (and then never used — the `skip
flagged` check is commented out in the source) by
`get_healthy_properties_grouped`. -/
def flaggedLocations (issues : List Issue) : List String :=
  distinctList ((issues.filter
    (fun i => lowerStr i.severity = "critical" ∨ lowerStr i.severity = "warning")).map
    (fun i => i.location))

/-- Source `PropertyService.get_healthy_properties_grouped`: every entry of
`get_all_properties` is appended to `healthy` when `reviews_count > 0`
and to `no_reviews` otherwise. The flagged-location skip present in the
source is commented out there, so flagged properties are not excluded. -/
def get_healthy_properties_grouped (hotels : List Hotel) (issues : List Issue) :
    HealthyGrouped :=
  let all_properties := get_all_properties hotels issues
  let _flagged_locations := flaggedLocations issues
  all_properties.foldl (fun acc prop =>
    if 0 < prop.reviews_count then { acc with healthy := acc.healthy ++ [prop] }
    else { acc with no_reviews := acc.no_reviews ++ [prop] })
    { healthy := [], no_reviews := [] }

/-- Result shape of `get_aspects_coverage`. -/
structure AspectsCoverage where
  aspects_with_issues : ℕ
  total_aspects : ℕ
deriving DecidableEq

/-- Source `PropertyService.get_aspects_coverage`: distinct non-empty
aspects among the issue rows versus the distinct aspect vocabulary of the
runbook reference table (`runbook_aspects` is its key list, which the
Python code wraps in `set(...)`). -/
def get_aspects_coverage (issues : List Issue) (runbook_aspects : List String) :
    AspectsCoverage :=
  { aspects_with_issues :=
      (distinctList ((issues.filter (fun i => i.aspect ≠ "")).map (fun i => i.aspect))).length,
    total_aspects := (distinctList runbook_aspects).length }

/-- Result shape of `get_summary_stats_from_reviews` (computed by a single
aggregation query over the review-fact table, so modelled as an input). -/
structure SummaryStats where
  total_reviews : ℕ
  total_properties : ℕ
  avg_rating : ℚ
  negative_reviews : ℕ
  avg_negative_reviews : ℚ
  reviews_processed : ℕ
  latest_review_date : String
deriving DecidableEq

/-- Constant trends block of `get_diagnostics_kpis`. -/
structure KpiTrends where
  negative_reviews_change : ℤ
  flagged_properties_change : ℤ
  satisfaction_change : ℚ
deriving DecidableEq

/-- Result shape of `get_diagnostics_kpis`. -/
structure Kpis where
  avg_negative_reviews : ℚ
  properties_flagged : ℕ
  total_properties : ℕ
  overall_satisfaction : ℚ
  reviews_processed : ℕ
  aspects_with_issues : ℕ
  total_aspects : ℕ
  trends : KpiTrends
deriving DecidableEq

/-- Count of distinct flagged locations (`set` of locations of rows whose
lowercased severity is critical or warning), used twice in
`get_diagnostics_kpis`. -/
def flaggedPropertiesCount (issues : List Issue) : ℕ :=
  (flaggedLocations issues).length

/-- Source `PropertyService.get_diagnostics_kpis`: prefers the review-fact
aggregation when it saw any review, otherwise derives the same shape from
the issue rows, and returns the fixed 85.0%-satisfaction placeholder when
those are empty too. `hotels`, `review_stats` and `issues` stand for the
results of `_get_hotel_locations`, `get_summary_stats_from_reviews` and
`_get_issues_data` (the `days` window is applied inside their SQL). -/
def get_diagnostics_kpis (hotels : List Hotel) (review_stats : SummaryStats)
    (issues : List Issue) (runbook_aspects : List String) : Kpis :=
  let total_properties := hotels.length
  let aspects_coverage := get_aspects_coverage issues runbook_aspects
  if 0 < review_stats.total_reviews then
    { avg_negative_reviews := review_stats.avg_negative_reviews,
      properties_flagged := flaggedPropertiesCount issues,
      total_properties := total_properties,
      overall_satisfaction := round1 (100 - review_stats.avg_negative_reviews),
      reviews_processed := review_stats.reviews_processed,
      aspects_with_issues := aspects_coverage.aspects_with_issues,
      total_aspects := aspects_coverage.total_aspects,
      trends := { negative_reviews_change := 0, flagged_properties_change := 0,
                  satisfaction_change := 0 } }
  else if issues.isEmpty then
    { avg_negative_reviews := 0,
      properties_flagged := 0,
      total_properties := total_properties,
      overall_satisfaction := 85.0,
      reviews_processed := 0,
      aspects_with_issues := aspects_coverage.aspects_with_issues,
      total_aspects := aspects_coverage.total_aspects,
      trends := { negative_reviews_change := 0, flagged_properties_change := 0,
                  satisfaction_change := 0 } }
  else
    let total_nms := (issues.map (fun i => i.nms_open)).sum
    let avg_negative := total_nms / issues.length
    let overall_satisfaction := max 0 (min 100 (100 - avg_negative))
    { avg_negative_reviews := round1 avg_negative,
      properties_flagged := flaggedPropertiesCount issues,
      total_properties := total_properties,
      overall_satisfaction := round1 overall_satisfaction,
      reviews_processed := issues.length,
      aspects_with_issues := aspects_coverage.aspects_with_issues,
      total_aspects := aspects_coverage.total_aspects,
      trends := { negative_reviews_change := 0, flagged_properties_change := 0,
                  satisfaction_change := 0 } }

/-- Detail block of `get_reviews_deep_dive` for a selected aspect. -/
structure DeepDive where
  aspect : String
  issue_summary : String
  potential_root_cause : String
  impact : String
  recommended_action : String
  negative_count : ℤ
  positive_count : ℤ
  total_reviews : ℕ
  volume_percentage : ℤ
  severity : String
  date_opened : String
  open_reason : String
deriving DecidableEq

/-- Result shape of `get_reviews_deep_dive`. -/
structure DeepDiveResult where
  aspects : List String
  selected_aspect : Option String
  deep_dive : Option DeepDive
deriving DecidableEq

/-- Renders a non-negative rational with one decimal digit, as Python
`f-string` formatting `:.1f` does for the values reaching it here. -/
def formatFixed1 (q : ℚ) : String :=
  let n := pyRound (q * 10)
  toString (n / 10) ++ "." ++ toString (n % 10)

/-- Source `PropertyService.get_reviews_deep_dive`: filter by normalized
location, list the sorted distinct aspects, and for a selected aspect
take the issue with the highest `nms_open` and reconstruct counts as
`negative_count = int(nms_open * volume_open)` and
`positive_count = volume_open - negative_count`, with
`volume_percentage = int(round(nms_open * 100))`. -/
def get_reviews_deep_dive (issues : List Issue) (property_id : String)
    (aspect? : Option String) : DeepDiveResult :=
  let property_issues := issues.filter (fun i => toPropertyId i.location = property_id)
  if property_issues.isEmpty then
    { aspects := [], selected_aspect := none, deep_dive := none }
  else
    let aspects := sortStrings (distinctList (property_issues.map (fun i => i.aspect)))
    match aspect? with
    | none => { aspects := aspects, selected_aspect := none, deep_dive := none }
    | some aspect =>
      match property_issues.filter (fun i => i.aspect = aspect) with
      | [] => { aspects := aspects, selected_aspect := some aspect, deep_dive := none }
      | first :: rest =>
        let primary_issue := firstMaxAux (fun i => i.nms_open) first rest
        let response_data := (primary_issue.response_data).getD
          { aspect := none, issue_summary := none, potential_root_cause := none,
            impact := none, recommended_action := none }
        let nms_open_value := primary_issue.nms_open
        let volume_open := primary_issue.volume_open
        let nms_percentage := nms_open_value * 100
        let negative_count := truncQ (nms_open_value * volume_open)
        let total_reviews := volume_open
        let positive_count := (total_reviews : ℤ) - negative_count
        { aspects := aspects, selected_aspect := some aspect,
          deep_dive := some
            { aspect := response_data.aspect.getD aspect,
              issue_summary := response_data.issue_summary.getD "No detailed summary available.",
              potential_root_cause := response_data.potential_root_cause.getD "Under investigation.",
              impact := response_data.impact.getD
                (formatFixed1 nms_percentage ++ "% of reviews mention this aspect negatively."),
              recommended_action := response_data.recommended_action.getD "Further analysis required.",
              negative_count := negative_count,
              positive_count := positive_count,
              total_reviews := total_reviews,
              volume_percentage := pyRound nms_percentage,
              severity := primary_issue.severity,
              date_opened := primary_issue.opened_at,
              open_reason := primary_issue.open_reason } }

/-- One row of `review_aspect_details` as selected by
`get_reviews_for_aspect` (evidence and opinion terms already normalized
to lists by the boundary code). -/
structure Review where
  review_uid : String
  aspect : String
  sentiment : String
  evidence : List String
  opinion_terms : List String
  star_rating : ℕ
  review_date : String
  review_text : String
  channel : String
deriving DecidableEq

/-- Sentiment split of `get_reviews_for_aspect`. -/
structure ReviewBuckets where
  positive : List Review
  negative : List Review
deriving DecidableEq

/-- Return value of `get_reviews_for_aspect`: the source returns a plain
empty list when the property has no issue rows, and the sentiment split
otherwise. -/
inductive ReviewsResult where
  | emptyList
  | buckets (b : ReviewBuckets)
deriving DecidableEq

/-- Source `PropertyService._get_placeholder_reviews`. -/
def placeholder_reviews (aspect : String) : ReviewBuckets :=
  { negative :=
      [{ review_uid := "review_001", aspect := aspect, sentiment := "negative",
         evidence := ["The room was not clean", "found dust on furniture"],
         opinion_terms := ["dirty", "unclean"], star_rating := 2,
         review_date := "2024-10-15",
         review_text := "The room was not clean. I found dust on the furniture and the bathroom needed attention.",
         channel := "Google" },
       { review_uid := "review_002", aspect := aspect, sentiment := "very_negative",
         evidence := ["terrible experience", "very disappointed"],
         opinion_terms := ["terrible", "disappointing"], star_rating := 1,
         review_date := "2024-10-14",
         review_text := "Terrible experience. Very disappointed with the quality.",
         channel := "TripAdvisor" }],
    positive :=
      [{ review_uid := "review_003", aspect := aspect, sentiment := "positive",
         evidence := ["very clean", "well maintained"],
         opinion_terms := ["clean", "excellent"], star_rating := 5,
         review_date := "2024-10-13",
         review_text := "Everything was very clean and well maintained. Excellent experience!",
         channel := "Google" },
       { review_uid := "review_004", aspect := aspect, sentiment := "very_positive",
         evidence := ["outstanding", "exceeded expectations"],
         opinion_terms := ["outstanding", "wonderful"], star_rating := 5,
         review_date := "2024-10-12",
         review_text := "Outstanding quality! Exceeded all my expectations. Highly recommend.",
         channel := "Booking.com" }] }

/-- Negative-sentiment test used both in the SQL ordering and in the
bucketing loop of `get_reviews_for_aspect`. -/
def isNegativeSentiment (sentiment : String) : Bool :=
  sentiment = "negative" ∨ sentiment = "very_negative"

/-- Source `PropertyService.get_reviews_for_aspect`: an empty issue slice
for the property returns a bare empty list (before any reviews query); a
`None` reply returns the empty split; an exception anywhere in the body
returns the placeholder reviews; otherwise rows are split by sentiment
polarity in order. The `opened_at`-anchored date window and the limit are
applied in the SQL text, hence not re-modelled on rows. -/
def get_reviews_for_aspect (issues : List Issue) (property_id : String)
    (aspect : String) (db : DbResult (List Review)) : ReviewsResult :=
  let property_issues := issues.filter (fun i => toPropertyId i.location = property_id)
  if property_issues.isEmpty then .emptyList
  else
    match db with
    | .errored => .buckets (placeholder_reviews aspect)
    | .connFailed => .buckets { positive := [], negative := [] }
    | .ok rows =>
      if rows.isEmpty then .buckets { positive := [], negative := [] }
      else
        .buckets
          { positive := rows.filter (fun r => ¬ isNegativeSentiment r.sentiment),
            negative := rows.filter (fun r => isNegativeSentiment r.sentiment) }

/-- Source `PropertyService._get_city_to_region_mapping`, as the literal
key-value pairs in their order of appearance (the Python dict literal
applies later-entry-wins to the duplicated keys Springfield and
Portland; `pyDict` below reproduces that). -/
def region_pairs : List (String × String) :=
  [("Boston", "Northeast"), ("Cambridge", "Northeast"), ("Worcester", "Northeast"),
   ("Springfield", "Northeast"), ("Providence", "Northeast"), ("Hartford", "Northeast"),
   ("New Haven", "Northeast"), ("Stamford", "Northeast"), ("Portland", "Northeast"),
   ("Bangor", "Northeast"), ("Manchester", "Northeast"), ("Concord", "Northeast"),
   ("Burlington", "Northeast"), ("Albany", "Northeast"), ("Syracuse", "Northeast"),
   ("Rochester", "Northeast"), ("Buffalo", "Northeast"), ("White Plains", "Northeast"),
   ("Newark", "Northeast"), ("Jersey City", "Northeast"),
   ("New York City", "Mid-Atlantic"), ("Manhattan", "Mid-Atlantic"),
   ("Brooklyn", "Mid-Atlantic"), ("Queens", "Mid-Atlantic"),
   ("Long Island", "Mid-Atlantic"), ("Atlantic City", "Mid-Atlantic"),
   ("Philadelphia", "Mid-Atlantic"), ("Pittsburgh", "Mid-Atlantic"),
   ("Harrisburg", "Mid-Atlantic"), ("Allentown", "Mid-Atlantic"),
   ("Wilmington", "Mid-Atlantic"), ("Baltimore", "Mid-Atlantic"),
   ("Annapolis", "Mid-Atlantic"), ("Silver Spring", "Mid-Atlantic"),
   ("Washington", "Mid-Atlantic"), ("Arlington", "Mid-Atlantic"),
   ("Alexandria", "Mid-Atlantic"), ("Richmond", "Mid-Atlantic"),
   ("Virginia Beach", "Mid-Atlantic"), ("Norfolk", "Mid-Atlantic"),
   ("Charlottesville", "Mid-Atlantic"),
   ("Charlotte", "Southeast"), ("Raleigh", "Southeast"), ("Durham", "Southeast"),
   ("Greensboro", "Southeast"), ("Asheville", "Southeast"), ("Charleston", "Southeast"),
   ("Columbia", "Southeast"), ("Greenville", "Southeast"), ("Atlanta", "Southeast"),
   ("Savannah", "Southeast"), ("Augusta", "Southeast"), ("Orlando", "Southeast"),
   ("Tampa", "Southeast"), ("Miami", "Southeast"), ("Fort Lauderdale", "Southeast"),
   ("West Palm Beach", "Southeast"), ("Jacksonville", "Southeast"),
   ("Tallahassee", "Southeast"), ("Pensacola", "Southeast"), ("Key West", "Southeast"),
   ("Chicago", "Midwest"), ("Naperville", "Midwest"), ("Springfield", "Midwest"),
   ("Rockford", "Midwest"), ("Indianapolis", "Midwest"), ("Fort Wayne", "Midwest"),
   ("Columbus", "Midwest"), ("Cleveland", "Midwest"), ("Cincinnati", "Midwest"),
   ("Toledo", "Midwest"), ("Detroit", "Midwest"), ("Ann Arbor", "Midwest"),
   ("Grand Rapids", "Midwest"), ("Milwaukee", "Midwest"), ("Madison", "Midwest"),
   ("Green Bay", "Midwest"), ("Minneapolis", "Midwest"), ("St. Paul", "Midwest"),
   ("Des Moines", "Midwest"), ("Kansas City", "Midwest"),
   ("Nashville", "South"), ("Memphis", "South"), ("Knoxville", "South"),
   ("Chattanooga", "South"), ("Louisville", "South"), ("Lexington", "South"),
   ("Birmingham", "South"), ("Montgomery", "South"), ("Huntsville", "South"),
   ("New Orleans", "South"), ("Baton Rouge", "South"), ("Little Rock", "South"),
   ("Fayetteville", "South"), ("Oklahoma City", "South"), ("Tulsa", "South"),
   ("Dallas", "Southwest"), ("Fort Worth", "Southwest"), ("Houston", "Southwest"),
   ("Austin", "Southwest"), ("San Antonio", "Southwest"), ("El Paso", "Southwest"),
   ("Albuquerque", "Southwest"), ("Santa Fe", "Southwest"), ("Phoenix", "Southwest"),
   ("Tucson", "Southwest"),
   ("Denver", "West"), ("Colorado Springs", "West"), ("Salt Lake City", "West"),
   ("Park City", "West"), ("Las Vegas", "West"), ("Reno", "West"), ("Boise", "West"),
   ("Spokane", "West"), ("Seattle", "West"), ("Tacoma", "West"), ("Portland", "West"),
   ("Eugene", "West"), ("San Diego", "West"), ("Los Angeles", "West"),
   ("San Francisco", "West")]

/-- Python dict construction from literal pairs: a repeated key keeps its
first position but takes the last value. -/
def pyDict (ps : List (String × String)) : List (String × String) :=
  ps.foldl (fun m p =>
    if m.any (fun q => q.1 = p.1) then
      m.map (fun q => if q.1 = p.1 then (q.1, p.2) else q)
    else m ++ [p]) []

/-- Value of `self._get_city_to_region_mapping()` at runtime. -/
def city_to_region : List (String × String) := pyDict region_pairs

/-- City extraction in `get_properties_by_region_and_severity`:
`location.split(',')[0].strip() if ',' in location else location`. -/
def extractCity (location : String) : String :=
  if location.data.contains ',' then
    stripStr (String.mk (location.data.takeWhile (fun c => c ≠ ',')))
  else location

/-- Region resolution in `get_properties_by_region_and_severity`: exact
dict lookup first, then a first-match case-insensitive scan of the dict
items, defaulting to "Other". -/
def regionForCity (city : String) : String :=
  match city_to_region.find? (fun p => p.1 = city) with
  | some p => p.2
  | none =>
    match city_to_region.find? (fun p => lowerStr p.1 = lowerStr city) with
    | some p => p.2
    | none => "Other"

/-- Follows the spec wording, for comparison with `regionForCity`: lookup
is case-insensitive; unmapped cities fall into "Other". -/
def regionForCitySpec (city : String) : String :=
  match city_to_region.find? (fun p => lowerStr p.1 = lowerStr city) with
  | some p => p.2
  | none => "Other"

/-- Per-region severity buckets of `get_properties_by_region_and_severity`. -/
structure RegionBucket where
  critical : List FlaggedGroup
  warning : List FlaggedGroup
deriving DecidableEq

/-- Total issue count of a region bucket (`len(critical) + len(warning)`),
the descending sort key of the leftover phase. -/
def regionTotal (b : RegionBucket) : ℕ := b.critical.length + b.warning.length

/-- One loop iteration of `get_properties_by_region_and_severity`: create
the region entry on first sight (at the end, dict insertion order), then
append the property group to its severity list. -/
def addRegion (regions : List (String × RegionBucket)) (prop : FlaggedGroup) :
    List (String × RegionBucket) :=
  let region := regionForCity (extractCity prop.property)
  let regions1 :=
    if regions.any (fun p => p.1 = region) then regions
    else regions ++ [(region, { critical := [], warning := [] })]
  if prop.severity = "critical" ∨ prop.severity = "warning" then
    regions1.map (fun p =>
      if p.1 = region then
        (p.1, if prop.severity = "critical" then
                { p.2 with critical := p.2.critical ++ [prop] }
              else
                { p.2 with warning := p.2.warning ++ [prop] })
      else p)
  else regions1

/-- The `regions` dict of `get_properties_by_region_and_severity` before
reordering. -/
def regionsMap (issues : List Issue) : List (String × RegionBucket) :=
  (get_flagged_properties_grouped issues).foldl addRegion []

/-- Python `sorted(regions.items(), key=total, reverse=True)`: stable
descending sort by total count. -/
def sortRegionsDesc (regions : List (String × RegionBucket)) :
    List (String × RegionBucket) :=
  stableSort (fun a b => decide (regionTotal b.2 ≤ regionTotal a.2)) regions

/-- Fixed canonical region order of the source. -/
def region_order : List String :=
  ["Northeast", "Mid-Atlantic", "Southeast", "Midwest", "South", "Southwest",
   "West", "Other"]

/-- Reordering phase of `get_properties_by_region_and_severity`: canonical
regions that are present first, then the remaining regions in descending
total order. -/
def orderRegions (regions : List (String × RegionBucket)) :
    List (String × RegionBucket) :=
  let canonical := region_order.foldl (fun acc r =>
    match regions.find? (fun p => p.1 = r) with
    | some p => acc ++ [p]
    | none => acc) []
  (sortRegionsDesc regions).foldl (fun acc p =>
    if acc.any (fun q => q.1 = p.1) then acc else acc ++ [p]) canonical

/-- Source `PropertyService.get_properties_by_region_and_severity`. -/
def get_properties_by_region_and_severity (issues : List Issue) :
    List (String × RegionBucket) :=
  let flagged := get_flagged_properties_grouped issues
  if flagged.isEmpty then []
  else orderRegions (flagged.foldl addRegion [])

/-- Ordinal severity scale of the spec (excellent < good < warning <
critical). -/
inductive Severity where
  | excellent
  | good
  | warning
  | critical
deriving DecidableEq

/-- Rank of a severity level in the spec ordering. -/
def sevRank : Severity → ℕ
  | .excellent => 0
  | .good => 1
  | .warning => 2
  | .critical => 3

/-- Modelled from the spec: the repository ships no code for the
threshold-fallback classifier (Policy B); the service methods read the
severity label from the warehouse rows. This definition transcribes the
spec thresholds: p at least 0.40 is critical, at least 0.20 warning, at
least 0.10 good, below that excellent, every boundary landing in the
more severe bucket. -/
def classifyThreshold (p : ℚ) : Severity :=
  if 2/5 ≤ p then .critical
  else if 1/5 ≤ p then .warning
  else if 1/10 ≤ p then .good
  else .excellent

/-- Status of the windowed (7-day vs 21-day) policy. -/
inductive WindowedStatus where
  | critical
  | warning
  | notFlagged
  | insufficientData
deriving DecidableEq

/-- Flag membership of a windowed status. -/
def windowedFlagged : WindowedStatus → Bool
  | .critical => true
  | .warning => true
  | .notFlagged => false
  | .insufficientData => false

/-- Modelled from the spec: the windowed 7-day vs 21-day baseline policy
exists in the repository only as the severity-threshold-modal help text
of `dash_app.py` (no executable classifier ships in the source). It
transcribes: critical when neg_7d at least 0.80 or delta_pp at least
15.0; warning when neg_7d at least 0.60 or delta_pp at least 10.0;
otherwise not flagged; and never flagged unless volume_7d at least 7. -/
def classifyWindowed (neg_7d delta_pp : ℚ) (volume_7d : ℕ) : WindowedStatus :=
  if volume_7d < 7 then .insufficientData
  else if 4/5 ≤ neg_7d ∨ 15 ≤ delta_pp then .critical
  else if 3/5 ≤ neg_7d ∨ 10 ≤ delta_pp then .warning
  else .notFlagged

/-- Modelled from the spec: the counts form of the windowed policy checks
the volume gate before the negative share is computed, so a zero volume
produces the insufficient-data status and no division is ever attempted. -/
def classifyWindowedCounts (neg_7d_count volume_7d : ℕ) (delta_pp : ℚ) :
    WindowedStatus :=
  if volume_7d < 7 then .insufficientData
  else classifyWindowed ((neg_7d_count : ℚ) / (volume_7d : ℚ)) delta_pp volume_7d

/-- C1: for every state of the issue table (including an empty one), the
list returned by `get_all_properties` has exactly one entry per property
in the hotel-locations directory (its length equals the directory size);
a property with no matching issue records appears with `aspects = []`,
`has_issues = false` and `top_theme = "no_issues"`. -/
theorem c1_directory_completeness (hotels : List Hotel) (issues : List Issue) :
    (get_all_properties hotels issues).length = hotels.length ∧
    ∀ hotel ∈ hotels, issues.filter (fun i => i.location = hotel.location) = [] →
      propertyView issues hotel ∈ get_all_properties hotels issues ∧
      (propertyView issues hotel).aspects = [] ∧
      (propertyView issues hotel).has_issues = false ∧
      (propertyView issues hotel).top_theme = "no_issues" := by
  refine ⟨by simp [get_all_properties], ?_⟩
  intro hotel hh hfilter
  refine ⟨List.mem_map_of_mem _ hh, ?_, ?_, ?_⟩ <;>
    simp [propertyView, hfilter, firstMaxByNms]

/-- Witness for C1 at a one-hotel directory and an empty issue table. -/
theorem c1_witness :
    (propertyView [] { location := "Boston, MA", latitude := 42, longitude := -71 }).top_theme
      = "no_issues" :=
  ((c1_directory_completeness
      [{ location := "Boston, MA", latitude := 42, longitude := -71 }] []).2
    { location := "Boston, MA", latitude := 42, longitude := -71 }
    (by with_unfolding_all decide) (by with_unfolding_all decide)).2.2.2

/-- C5: under the spec threshold policy (no upstream label), the buckets
are exactly 0.40-critical / 0.20-warning / 0.10-good / below-excellent
with boundaries in the more severe bucket, and classification is
monotone in the negative share. -/
theorem c5_threshold_policy :
    (∀ p : ℚ,
      (classifyThreshold p = .critical ↔ 0.40 ≤ p) ∧
      (classifyThreshold p = .warning ↔ 0.20 ≤ p ∧ p < 0.40) ∧
      (classifyThreshold p = .good ↔ 0.10 ≤ p ∧ p < 0.20) ∧
      (classifyThreshold p = .excellent ↔ p < 0.10)) ∧
    (classifyThreshold 0.40 = .critical ∧ classifyThreshold 0.20 = .warning ∧
      classifyThreshold 0.10 = .good) ∧
    (∀ p q : ℚ, p < q →
      sevRank (classifyThreshold p) ≤ sevRank (classifyThreshold q)) := by
  have key : ∀ p : ℚ,
      (2/5 ≤ p ∧ classifyThreshold p = .critical) ∨
      (1/5 ≤ p ∧ p < 2/5 ∧ classifyThreshold p = .warning) ∨
      (1/10 ≤ p ∧ p < 1/5 ∧ classifyThreshold p = .good) ∨
      (p < 1/10 ∧ classifyThreshold p = .excellent) := by
    intro p
    unfold classifyThreshold
    split_ifs with h1 h2 h3
    · exact Or.inl ⟨h1, rfl⟩
    · exact Or.inr (Or.inl ⟨h2, not_le.mp h1, rfl⟩)
    · exact Or.inr (Or.inr (Or.inl ⟨h3, not_le.mp h2, rfl⟩))
    · exact Or.inr (Or.inr (Or.inr ⟨not_le.mp h3, rfl⟩))
  have e1 : (0.40 : ℚ) = 2/5 := by norm_num
  have e2 : (0.20 : ℚ) = 1/5 := by norm_num
  have e3 : (0.10 : ℚ) = 1/10 := by norm_num
  have hb : ∀ p : ℚ,
      (classifyThreshold p = .critical ↔ 0.40 ≤ p) ∧
      (classifyThreshold p = .warning ↔ 0.20 ≤ p ∧ p < 0.40) ∧
      (classifyThreshold p = .good ↔ 0.10 ≤ p ∧ p < 0.20) ∧
      (classifyThreshold p = .excellent ↔ p < 0.10) := by
    intro p
    rw [e1, e2, e3]
    rcases key p with ⟨h, e⟩ | ⟨h, h9, e⟩ | ⟨h, h9, e⟩ | ⟨h, e⟩ <;> rw [e] <;>
      refine ⟨⟨fun hx => ?_, fun hx => ?_⟩, ⟨fun hx => ?_, fun hx => ?_⟩,
        ⟨fun hx => ?_, fun hx => ?_⟩, ⟨fun hx => ?_, fun hx => ?_⟩⟩ <;>
      first
        | rfl
        | linarith
        | exact ⟨by linarith, by linarith⟩
        | cases hx
  refine ⟨hb, ⟨?_, ?_, ?_⟩, ?_⟩
  · exact (hb 0.40).1.mpr (by norm_num)
  · exact (hb 0.20).2.1.mpr (by norm_num)
  · exact (hb 0.10).2.2.1.mpr (by norm_num)
  · intro p q hpq
    unfold classifyThreshold
    split_ifs <;> simp [sevRank] <;> linarith

/-- Witness for C5 monotonicity at 0.15 versus 0.45. -/
theorem c5_witness :
    sevRank (classifyThreshold 0.15) ≤ sevRank (classifyThreshold 0.45) :=
  c5_threshold_policy.2.2 0.15 0.45 (by norm_num)

/-- C6: under the windowed policy, a 7-day volume below 7 is never
flagged whatever the share or delta, and a zero volume produces the
insufficient-data status with the volume gate checked before any
division. -/
theorem c6_volume_gate :
    (∀ (neg_7d delta_pp : ℚ) (volume_7d : ℕ), volume_7d < 7 →
      classifyWindowed neg_7d delta_pp volume_7d = .insufficientData ∧
      windowedFlagged (classifyWindowed neg_7d delta_pp volume_7d) = false) ∧
    (∀ (neg_7d_count : ℕ) (delta_pp : ℚ),
      classifyWindowedCounts neg_7d_count 0 delta_pp = .insufficientData) := by
  constructor
  · intro n d v hv
    constructor <;> simp [classifyWindowed, hv, windowedFlagged]
  · intro n d
    simp [classifyWindowedCounts]

/-- Witness for C6 with an extreme share and delta at volume 0. -/
theorem c6_witness : windowedFlagged (classifyWindowed 100 1000 0) = false :=
  (c6_volume_gate.1 100 1000 0 (by norm_num)).2

/-- C9: when the review-fact aggregation reports zero reviews and the
issue set is empty, `get_diagnostics_kpis` returns the directory size as
`total_properties`, zero flagged/negative/processed counts and the fixed
85.0 placeholder satisfaction. -/
theorem c9_kpi_denominator_stability (hotels : List Hotel)
    (review_stats : SummaryStats) (issues : List Issue)
    (runbook_aspects : List String)
    (hrev : review_stats.total_reviews = 0) (hiss : issues = []) :
    let k := get_diagnostics_kpis hotels review_stats issues runbook_aspects
    k.total_properties = hotels.length ∧ k.properties_flagged = 0 ∧
    k.avg_negative_reviews = 0 ∧ k.reviews_processed = 0 ∧
    k.overall_satisfaction = 85.0 := by
  subst hiss
  simp [get_diagnostics_kpis, hrev]

/-- Witness for C9 at a one-hotel directory with empty inputs. -/
theorem c9_witness :
    (get_diagnostics_kpis [{ location := "Austin, TX", latitude := 30, longitude := -97 }]
      { total_reviews := 0, total_properties := 0, avg_rating := 0, negative_reviews := 0,
        avg_negative_reviews := 0, reviews_processed := 0, latest_review_date := "N/A" }
      [] ["Room Cleanliness"]).overall_satisfaction = 85.0 :=
  (c9_kpi_denominator_stability
    [{ location := "Austin, TX", latitude := 30, longitude := -97 }]
    { total_reviews := 0, total_properties := 0, avg_rating := 0, negative_reviews := 0,
      avg_negative_reviews := 0, reviews_processed := 0, latest_review_date := "N/A" }
    [] ["Room Cleanliness"] rfl rfl).2.2.2.2

/-- C10: `get_property_details` returns `None` whenever no issue record
has a normalized location equal to the requested id, so a known property
with zero issue records is indistinguishable from an unknown id. -/
theorem c10_details_none_without_issues (issues : List Issue)
    (review_stats : ℕ × ℚ) (property_id : String)
    (h : ∀ i ∈ issues, toPropertyId i.location ≠ property_id) :
    get_property_details issues review_stats property_id = none := by
  have hfilter : issues.filter (fun i => toPropertyId i.location = property_id) = [] := by
    simp only [List.filter_eq_nil_iff]
    intro i hi
    simpa using h i hi
  simp [get_property_details, hfilter]

/-- Witness for C10: a healthy directory property (no issue rows match
"boston-ma" in the placeholder issue set) yields `None`. -/
theorem c10_witness :
    get_property_details placeholder_data (0, 0) "boston-ma" = none :=
  c10_details_none_without_issues placeholder_data (0, 0) "boston-ma"
    (by with_unfolding_all decide)

/-- Helper: the Python `max` fold returns its seed or a list element. -/
theorem firstMaxAux_mem (f : Issue → ℚ) (a : Issue) (l : List Issue) :
    firstMaxAux f a l = a ∨ firstMaxAux f a l ∈ l := by
  induction l generalizing a with
  | nil => left; rfl
  | cons b t ih =>
    simp only [firstMaxAux]
    rcases ih (if f a < f b then b else a) with h | h
    · rw [h]
      by_cases hc : f a < f b
      · right; simp [hc]
      · left; simp [hc]
    · right; exact List.mem_cons_of_mem _ h

/-- Helper: the Python `max` fold dominates its seed and every element. -/
theorem firstMaxAux_ge (f : Issue → ℚ) (a : Issue) (l : List Issue) :
    f a ≤ f (firstMaxAux f a l) ∧ ∀ j ∈ l, f j ≤ f (firstMaxAux f a l) := by
  induction l generalizing a with
  | nil => exact ⟨le_refl _, by simp⟩
  | cons b t ih =>
    simp only [firstMaxAux]
    obtain ⟨h1, h2⟩ := ih (if f a < f b then b else a)
    have hseed : f a ≤ f (if f a < f b then b else a) := by
      by_cases hc : f a < f b
      · simp [hc]; exact le_of_lt hc
      · simp [hc]
    have hb : f b ≤ f (if f a < f b then b else a) := by
      by_cases hc : f a < f b
      · simp [hc]
      · simp [hc]; exact le_of_not_lt hc
    refine ⟨le_trans hseed h1, ?_⟩
    intro j hj
    rcases List.mem_cons.mp hj with rfl | hj
    · exact le_trans hb h1
    · exact h2 j hj

/-- Aspect slice used by `get_reviews_deep_dive`: the issues of the
property (by normalized location) restricted to the selected aspect. -/
def aspectIssues (issues : List Issue) (property_id aspect : String) : List Issue :=
  (issues.filter (fun i => toPropertyId i.location = property_id)).filter
    (fun i => i.aspect = aspect)

/-- C3 (amended): for a property and aspect with at least one matching
issue record, `get_reviews_deep_dive` selects the record with the
highest negative share and returns `negative_count` as the Python `int`
truncation of `negative_share * volume` (not the nearest-integer
rounding the claim states), `positive_count = volume - negative_count`,
and `volume_percentage` as the negative share rounded to the nearest
integer percent. -/
theorem c3_deep_dive_counts (issues : List Issue) (property_id aspect : String)
    (first : Issue) (rest : List Issue)
    (h : aspectIssues issues property_id aspect = first :: rest) :
    let primary := firstMaxAux (fun i => i.nms_open) first rest
    ((get_reviews_deep_dive issues property_id (some aspect)).deep_dive.map
        (fun d => d.negative_count))
      = some (truncQ (primary.nms_open * primary.volume_open)) ∧
    ((get_reviews_deep_dive issues property_id (some aspect)).deep_dive.map
        (fun d => d.positive_count))
      = some ((primary.volume_open : ℤ) - truncQ (primary.nms_open * primary.volume_open)) ∧
    ((get_reviews_deep_dive issues property_id (some aspect)).deep_dive.map
        (fun d => d.volume_percentage))
      = some (pyRound (primary.nms_open * 100)) ∧
    primary ∈ aspectIssues issues property_id aspect ∧
    ∀ j ∈ aspectIssues issues property_id aspect, j.nms_open ≤ primary.nms_open := by
  intro primary
  have hne : issues.filter (fun i => toPropertyId i.location = property_id) ≠ [] := by
    intro hnil
    rw [aspectIssues, hnil] at h
    simp at h
  have hempty : (issues.filter (fun i => toPropertyId i.location = property_id)).isEmpty = false := by
    simpa [List.isEmpty_iff] using hne
  have hfilter : (issues.filter (fun i => toPropertyId i.location = property_id)).filter
      (fun i => i.aspect = aspect) = first :: rest := h
  refine ⟨?_, ?_, ?_, ?_, ?_⟩
  · simp [get_reviews_deep_dive, hempty, hfilter]
  · simp [get_reviews_deep_dive, hempty, hfilter]
  · simp [get_reviews_deep_dive, hempty, hfilter]
  · rw [h]
    show firstMaxAux (fun i => i.nms_open) first rest ∈ first :: rest
    rcases firstMaxAux_mem (fun i => i.nms_open) first rest with he | he
    · rw [he]; exact List.mem_cons_self _ _
    · exact List.mem_cons_of_mem _ he
  · rw [h]
    obtain ⟨h1, h2⟩ := firstMaxAux_ge (fun i => i.nms_open) first rest
    intro j hj
    rcases List.mem_cons.mp hj with rfl | hj
    · exact h1
    · exact h2 j hj

/-- Concrete issue row for the C3 counterexample: negative share 0.409
over 100 reviews, the example from the spec test. -/
def c3_issue : Issue :=
  { location := "austin", aspect := "WiFi", severity := "Critical", status := "Open",
    open_reason := "connectivity_issues", nms_open := 0.409, volume_open := 100,
    opened_at := "2024-01-12", response_data := none }

/-- Counterexample to C3 as stated: with negative share 0.409 and volume
100 the code produces `negative_count = 40` (truncation) and
`positive_count = 60`, not the claimed 41 and 59; `volume_percentage` is
41 as claimed. -/
theorem c3_counterexample :
    ((get_reviews_deep_dive [c3_issue] "austin" (some "WiFi")).deep_dive.map
        (fun d => d.negative_count)) = some 40 ∧
    ((get_reviews_deep_dive [c3_issue] "austin" (some "WiFi")).deep_dive.map
        (fun d => d.negative_count)) ≠ some 41 ∧
    ((get_reviews_deep_dive [c3_issue] "austin" (some "WiFi")).deep_dive.map
        (fun d => d.positive_count)) = some 60 ∧
    ((get_reviews_deep_dive [c3_issue] "austin" (some "WiFi")).deep_dive.map
        (fun d => d.volume_percentage)) = some 41 := by
  with_unfolding_all decide

set_option maxRecDepth 10000 in
/-- Witness for the amended C3 at the 0.409/100 example row. -/
theorem c3_witness :
    ((get_reviews_deep_dive [c3_issue] "austin" (some "WiFi")).deep_dive.map
        (fun d => d.negative_count))
      = some (truncQ (c3_issue.nms_open * c3_issue.volume_open)) :=
  (c3_deep_dive_counts [c3_issue] "austin" "WiFi" c3_issue []
    (by with_unfolding_all decide)).1

/-- Invariant of the `get_flagged_properties_grouped` fold: every group
holds only critical/warning aspects and its severity is critical exactly
when some member aspect is critical. -/
def flaggedGroupsInv (gs : List FlaggedGroup) : Prop :=
  ∀ g ∈ gs,
    (∀ a ∈ g.aspects, a.status = "critical" ∨ a.status = "warning") ∧
    g.severity = (if g.aspects.any (fun a => a.status == "critical")
                  then "critical" else "warning")

/-- Helper: one `addFlaggedIssue` step preserves the group invariant. -/
theorem addFlaggedIssue_inv (gs : List FlaggedGroup) (issue : Issue)
    (h : flaggedGroupsInv gs) : flaggedGroupsInv (addFlaggedIssue gs issue) := by
  simp only [addFlaggedIssue]
  split_ifs with hflag hex hc hc4
  · intro g' hg'
    rcases List.mem_map.mp hg' with ⟨g, hg, rfl⟩
    obtain ⟨ha, hsev⟩ := h g hg
    by_cases hid : g.property_id = toPropertyId issue.location
    · simp only [if_pos hid]
      refine ⟨?_, ?_⟩
      · intro a ha'
        rcases List.mem_append.mp ha' with hmem | hmem
        · exact ha a hmem
        · left
          rw [List.mem_singleton.mp hmem]
          exact hc
      · simp [List.any_append, hc]
    · simp only [if_neg hid]
      exact ⟨ha, hsev⟩
  · have hw : lowerStr issue.severity = "warning" := hflag.resolve_left hc
    intro g' hg'
    rcases List.mem_map.mp hg' with ⟨g, hg, rfl⟩
    obtain ⟨ha, hsev⟩ := h g hg
    by_cases hid : g.property_id = toPropertyId issue.location
    · simp only [if_pos hid]
      refine ⟨?_, ?_⟩
      · intro a ha'
        rcases List.mem_append.mp ha' with hmem | hmem
        · exact ha a hmem
        · right
          rw [List.mem_singleton.mp hmem]
          exact hw
      · simp [List.any_append, hw, hsev]
    · simp only [if_neg hid]
      exact ⟨ha, hsev⟩
  · intro g' hg'
    rcases List.mem_append.mp hg' with hmem | hmem
    · exact h g' hmem
    · rw [List.mem_singleton.mp hmem]
      refine ⟨?_, ?_⟩
      · intro a ha'
        left
        rw [List.mem_singleton.mp ha']
        exact hc4
      · simp [hc4]
  · have hw : lowerStr issue.severity = "warning" := hflag.resolve_left hc4
    intro g' hg'
    rcases List.mem_append.mp hg' with hmem | hmem
    · exact h g' hmem
    · rw [List.mem_singleton.mp hmem]
      refine ⟨?_, ?_⟩
      · intro a ha'
        right
        rw [List.mem_singleton.mp ha']
        exact hw
      · simp [hw]
  · exact h

/-- Helper: the invariant holds after folding any issue list. -/
theorem foldl_addFlaggedIssue_inv (issues : List Issue) (acc : List FlaggedGroup)
    (h : flaggedGroupsInv acc) :
    flaggedGroupsInv (issues.foldl addFlaggedIssue acc) := by
  induction issues generalizing acc with
  | nil => exact h
  | cons i t ih => exact ih _ (addFlaggedIssue_inv acc i h)

/-- C2: every group returned by `get_flagged_properties_grouped` contains
only aspects whose lowercased severity is critical or warning, and the
group severity is critical exactly when some member aspect is critical
(max-wins), else warning. -/
theorem c2_grouped_severity_max_wins (issues : List Issue) (g : FlaggedGroup)
    (hg : g ∈ get_flagged_properties_grouped issues) :
    (∀ a ∈ g.aspects, a.status = "critical" ∨ a.status = "warning") ∧
    g.severity = (if g.aspects.any (fun a => a.status == "critical")
                  then "critical" else "warning") :=
  foldl_addFlaggedIssue_inv issues [] (by intro g hg; cases hg) g hg

/-- Issue pair for the C2 witness: one warning and one critical aspect of
the same property. -/
def c2_issues : List Issue :=
  [{ location := "Miami, FL", aspect := "Staff Service", severity := "Warning",
     status := "Open", open_reason := "service_delays", nms_open := 0.032,
     volume_open := 0, opened_at := "2024-01-14", response_data := none },
   { location := "Miami, FL", aspect := "Amenities", severity := "Critical",
     status := "Open", open_reason := "amenity_concerns", nms_open := 0.5,
     volume_open := 0, opened_at := "2024-01-14", response_data := none }]

/-- Group produced from `c2_issues`. -/
def c2_group : FlaggedGroup :=
  { property := "Miami, FL", property_id := "miami-fl",
    aspects := [{ aspect := "Staff Service", negative_percentage := 0.032, status := "warning" },
                { aspect := "Amenities", negative_percentage := 0.5, status := "critical" }],
    severity := "critical" }

set_option maxRecDepth 10000 in
/-- Witness for C2: the warning-plus-critical property is reported with
group severity critical. -/
theorem c2_witness :
    c2_group.severity = (if c2_group.aspects.any (fun a => a.status == "critical")
                         then "critical" else "warning") :=
  (c2_grouped_severity_max_wins c2_issues c2_group (by with_unfolding_all decide)).2

/-- C8: when the data source is unreachable (a `None` reply or a raised
exception), the issues and hotel fetches return their fixed placeholder
datasets, downstream aggregation then computes over those fixed
datasets, and `get_reviews_for_aspect` returns the placeholder reviews
on an exception and the empty sentiment split on a `None` reply — in
every case a value of the success shape, never a propagated exception
(all the embedded operations are total functions). -/
theorem c8_placeholder_on_failure :
    (get_issues_data .connFailed = placeholder_data) ∧
    (get_issues_data .errored = placeholder_data) ∧
    (get_hotel_locations .connFailed = placeholder_hotel_locations) ∧
    (get_hotel_locations .errored = placeholder_hotel_locations) ∧
    (get_all_properties (get_hotel_locations .connFailed) (get_issues_data .connFailed)
      = get_all_properties placeholder_hotel_locations placeholder_data) ∧
    (∀ issues property_id aspect,
      issues.filter (fun i => toPropertyId i.location = property_id) ≠ [] →
      get_reviews_for_aspect issues property_id aspect .errored
        = .buckets (placeholder_reviews aspect)) ∧
    (∀ issues property_id aspect,
      issues.filter (fun i => toPropertyId i.location = property_id) ≠ [] →
      get_reviews_for_aspect issues property_id aspect .connFailed
        = .buckets { positive := [], negative := [] }) := by
  refine ⟨rfl, rfl, rfl, rfl, rfl, ?_, ?_⟩ <;>
    · intro issues property_id aspect hne
      have hempty : (issues.filter (fun i => toPropertyId i.location = property_id)).isEmpty
          = false := by
        simpa [List.isEmpty_iff] using hne
      simp [get_reviews_for_aspect, hempty]

set_option maxRecDepth 10000 in
/-- Witness for C8: with the placeholder issue set, an exception in the
reviews query degrades to the placeholder reviews for the aspect. -/
theorem c8_witness :
    get_reviews_for_aspect placeholder_data "miami-fl" "Staff Service" .errored
      = .buckets (placeholder_reviews "Staff Service") :=
  c8_placeholder_on_failure.2.2.2.2.2.1 placeholder_data "miami-fl" "Staff Service"
    (by with_unfolding_all decide)

/-- Directory with the single flagged property used for C4. -/
def c4_hotels : List Hotel :=
  [{ location := "Austin, TX", latitude := 30, longitude := -97 }]

/-- Issue set for C4: Austin has one critical aspect, so it is flagged. -/
def c4_issues : List Issue :=
  [{ location := "Austin, TX", aspect := "WiFi Connectivity", severity := "Critical",
     status := "Open", open_reason := "connectivity_issues", nms_open := 0.51,
     volume_open := 100, opened_at := "2024-01-12", response_data := none }]

set_option maxRecDepth 10000 in
/-- C4 (code behaviour at the failing input): Austin is flagged (it forms
a critical group in `get_flagged_properties_grouped`), yet
`get_healthy_properties_grouped` files it under `healthy` — the
flagged-location skip is commented out in the source — contradicting the
claim that flagged properties appear in neither bucket. -/
theorem c4_flagged_lands_in_healthy :
    ((get_flagged_properties_grouped c4_issues).map (fun g => g.property_id)
      = ["austin-tx"]) ∧
    ((get_flagged_properties_grouped c4_issues).map (fun g => g.severity)
      = ["critical"]) ∧
    ((get_healthy_properties_grouped c4_hotels c4_issues).healthy.map
        (fun p => p.property_id) = ["austin-tx"]) ∧
    ((get_healthy_properties_grouped c4_hotels c4_issues).no_reviews = []) := by
  with_unfolding_all decide

/-- Helper: inserting into the stable sort permutes cons. -/
theorem insertLe_perm {α : Type} (le : α → α → Bool) (a : α) (l : List α) :
    (insertLe le a l).Perm (a :: l) := by
  induction l with
  | nil => simp [insertLe]
  | cons b t ih =>
    simp only [insertLe]
    split
    · exact (ih.cons b).trans (List.Perm.swap a b t)
    · exact List.Perm.refl _

/-- Helper: the insertion fold permutes the seed appended with the input. -/
theorem foldl_insertLe_perm {α : Type} (le : α → α → Bool) :
    ∀ (l acc : List α),
      (l.foldl (fun acc a => insertLe le a acc) acc).Perm (acc ++ l) := by
  intro l
  induction l with
  | nil => intro acc; simp
  | cons a t ih =>
    intro acc
    simp only [List.foldl_cons]
    refine (ih (insertLe le a acc)).trans ?_
    refine ((insertLe_perm le a acc).append_right t).trans ?_
    simpa using List.perm_middle.symm

/-- Helper: the stable sort is a permutation of its input. -/
theorem stableSort_perm {α : Type} (le : α → α → Bool) (l : List α) :
    (stableSort le l).Perm l := by
  simpa [stableSort] using foldl_insertLe_perm le l []

/-- Helper: insertion keeps a list pairwise-ordered for a total transitive
comparison. -/
theorem insertLe_pairwise {α : Type} (le : α → α → Bool)
    (htot : ∀ a b, le a b = true ∨ le b a = true)
    (htrans : ∀ a b c, le a b = true → le b c = true → le a c = true) :
    ∀ (a : α) (l : List α), l.Pairwise (fun x y => le x y = true) →
      (insertLe le a l).Pairwise (fun x y => le x y = true) := by
  intro a l
  induction l with
  | nil => intro _; simp [insertLe]
  | cons b t ih =>
    intro hl
    rcases List.pairwise_cons.mp hl with ⟨hb, ht⟩
    simp only [insertLe]
    by_cases hc : le b a = true
    · simp only [if_pos hc]
      refine List.pairwise_cons.mpr ⟨?_, ih ht⟩
      intro x hx
      rcases List.mem_cons.mp ((insertLe_perm le a t).mem_iff.mp hx) with rfl | hxt
      · exact hc
      · exact hb x hxt
    · simp only [if_neg hc]
      have hab : le a b = true := (htot a b).resolve_right hc
      refine List.pairwise_cons.mpr ⟨?_, hl⟩
      intro x hx
      rcases List.mem_cons.mp hx with rfl | hxt
      · exact hab
      · exact htrans a b x hab (hb x hxt)

/-- Helper: the stable sort orders its output for a total transitive
comparison. -/
theorem stableSort_pairwise {α : Type} (le : α → α → Bool)
    (htot : ∀ a b, le a b = true ∨ le b a = true)
    (htrans : ∀ a b c, le a b = true → le b c = true → le a c = true)
    (l : List α) :
    (stableSort le l).Pairwise (fun x y => le x y = true) := by
  have haux : ∀ (l acc : List α), acc.Pairwise (fun x y => le x y = true) →
      (l.foldl (fun acc a => insertLe le a acc) acc).Pairwise (fun x y => le x y = true) := by
    intro l
    induction l with
    | nil => intro acc h; exact h
    | cons a t ih =>
      intro acc h
      exact ih _ (insertLe_pairwise le htot htrans a acc h)
  exact haux l [] List.Pairwise.nil

/-- Helper: the descending region sort is a permutation. -/
theorem sortRegionsDesc_perm (regions : List (String × RegionBucket)) :
    (sortRegionsDesc regions).Perm regions := stableSort_perm _ _

/-- Helper: the descending region sort is sorted by descending total. -/
theorem sortRegionsDesc_sorted (regions : List (String × RegionBucket)) :
    (sortRegionsDesc regions).Pairwise (fun a b => regionTotal b.2 ≤ regionTotal a.2) := by
  have h := stableSort_pairwise (fun a b => decide (regionTotal b.2 ≤ regionTotal a.2))
    (fun a b => by rcases le_total (regionTotal b.2) (regionTotal a.2) with h | h <;> simp [h])
    (fun a b c h1 h2 => by
      simp only [decide_eq_true_eq] at h1 h2 ⊢
      exact le_trans h2 h1)
    regions
  exact h.imp (fun h => by simpa using h)

set_option maxRecDepth 200000 in
/-- Data fact about the runtime region dictionary: for every entry, the
first case-insensitive match of its key yields its value (the dictionary
has no two distinct keys equal up to case). -/
theorem city_region_ci_coherent :
    city_to_region.all (fun p =>
      decide ((city_to_region.find? (fun q => lowerStr q.1 = lowerStr p.1)).map Prod.snd
        = some p.2)) = true := by
  with_unfolding_all decide

/-- Helper: the exact-then-case-insensitive lookup of the source equals
the purely case-insensitive lookup of the spec. -/
theorem regionForCity_eq_spec (city : String) :
    regionForCity city = regionForCitySpec city := by
  unfold regionForCity regionForCitySpec
  cases hfind : city_to_region.find? (fun p => p.1 = city) with
  | none =>
    cases hf2 : city_to_region.find? (fun q => lowerStr q.1 = lowerStr city) with
    | none => rfl
    | some q => rfl
  | some p =>
    have hp1 : p.1 = city := by simpa using List.find?_some hfind
    have hpmem : p ∈ city_to_region := List.mem_of_find?_eq_some hfind
    have hthis : (city_to_region.find? (fun q => lowerStr q.1 = lowerStr p.1)).map Prod.snd
        = some p.2 := by
      have h := List.all_eq_true.mp city_region_ci_coherent p hpmem
      simpa using h
    rw [← hp1]
    cases hf2 : city_to_region.find? (fun q => lowerStr q.1 = lowerStr p.1) with
    | none =>
      rw [hf2] at hthis
      exact absurd hthis (by simp)
    | some q =>
      rw [hf2] at hthis
      have hq : q.2 = p.2 := by simpa using hthis
      exact hq.symm

/-- Helper: keys collected by the canonical-order phase are the canonical
names that are present, in canonical order. -/
theorem canonical_foldl_keys (ro : List String)
    (regions : List (String × RegionBucket)) :
    ∀ acc : List (String × RegionBucket),
      ((ro.foldl (fun acc r =>
          match regions.find? (fun p => p.1 = r) with
          | some p => acc ++ [p]
          | none => acc) acc).map Prod.fst)
      = acc.map Prod.fst ++ ro.filter (fun r => regions.any (fun p => p.1 = r)) := by
  induction ro with
  | nil => intro acc; simp
  | cons r t ih =>
    intro acc
    simp only [List.foldl_cons, List.filter_cons]
    cases hf : regions.find? (fun p => p.1 = r) with
    | some p =>
      have hr : regions.any (fun p => p.1 = r) = true := by
        refine List.any_eq_true.mpr ⟨p, List.mem_of_find?_eq_some hf, ?_⟩
        simpa using List.find?_some hf
      have hp1 : p.1 = r := by simpa using List.find?_some hf
      rw [hr]
      simp only [if_true]
      rw [ih (acc ++ [p])]
      simp [hp1]
    | none =>
      have hr : regions.any (fun p => p.1 = r) = false := by
        have hn := List.find?_eq_none.mp hf
        simp only [List.any_eq_false]
        intro p hp
        simpa using hn p hp
      rw [hr]
      simp only [Bool.false_eq_true, if_false]
      exact ih acc

/-- Helper: keys collected by the leftover phase are the old keys
followed by the not-yet-present new keys in their given order, provided
the incoming keys are distinct. -/
theorem leftover_foldl_keys :
    ∀ (l acc : List (String × RegionBucket)), (l.map Prod.fst).Nodup →
      ((l.foldl (fun acc p =>
          if acc.any (fun q => q.1 = p.1) then acc else acc ++ [p]) acc).map Prod.fst)
      = acc.map Prod.fst ++
        (l.map Prod.fst).filter (fun k => !(acc.any (fun q => q.1 = k))) := by
  intro l
  induction l with
  | nil => intro acc _; simp
  | cons p t ih =>
    intro acc hnd
    rw [List.map_cons] at hnd
    obtain ⟨hp_not_t, hnd_t⟩ := List.nodup_cons.mp hnd
    simp only [List.foldl_cons, List.map_cons, List.filter_cons]
    by_cases hin : (acc.any fun q => decide (q.1 = p.1)) = true
    · rw [if_pos hin]
      have hnotc : ¬((!(acc.any fun q => decide (q.1 = p.1))) = true) := by
        simp [hin]
      rw [if_neg hnotc]
      exact ih acc hnd_t
    · rw [if_neg hin]
      have hC : (acc.any fun q => decide (q.1 = p.1)) = false := eq_false_of_ne_true hin
      have hnotc : (!(acc.any fun q => decide (q.1 = p.1))) = true := by
        rw [hC]
        rfl
      rw [if_pos hnotc]
      rw [ih (acc ++ [p]) hnd_t]
      have hcong : (t.map Prod.fst).filter (fun k => !((acc ++ [p]).any (fun q => q.1 = k)))
          = (t.map Prod.fst).filter (fun k => !(acc.any (fun q => q.1 = k))) := by
        apply List.filter_congr
        intro k hk
        have hkne : p.1 ≠ k := fun he => hp_not_t (he ▸ hk)
        simp [List.any_append, hkne]
      rw [hcong]
      simp

/-- Helper: mapping a key-preserving update over an association list keeps
its key list. -/
theorem keys_map_of_fst (l : List (String × RegionBucket))
    (f : String × RegionBucket → String × RegionBucket)
    (hf : ∀ p, (f p).1 = p.1) :
    ((l.map f).map Prod.fst) = l.map Prod.fst := by
  induction l with
  | nil => rfl
  | cons a t ih => simp only [List.map_cons, ih, hf]

/-- Helper: one `addRegion` step either keeps the key list or appends the
new region key, which was absent. -/
theorem addRegion_keys (regions : List (String × RegionBucket)) (g : FlaggedGroup) :
    ((addRegion regions g).map Prod.fst) = regions.map Prod.fst ∨
    (regionForCity (extractCity g.property) ∉ regions.map Prod.fst ∧
     (addRegion regions g).map Prod.fst
       = regions.map Prod.fst ++ [regionForCity (extractCity g.property)]) := by
  have hf : ∀ p : String × RegionBucket,
      ((fun p => if p.1 = regionForCity (extractCity g.property) then
          (p.1, if g.severity = "critical" then
                  { p.2 with critical := p.2.critical ++ [g] }
                else
                  { p.2 with warning := p.2.warning ++ [g] })
        else p) p).1 = p.1 := by
    intro p
    by_cases hc : p.1 = regionForCity (extractCity g.property) <;> simp [hc]
  simp only [addRegion]
  by_cases hany : (regions.any fun p => decide (p.1 = regionForCity (extractCity g.property))) = true
  · rw [if_pos hany]
    left
    by_cases hsev : g.severity = "critical" ∨ g.severity = "warning"
    · rw [if_pos hsev]
      exact keys_map_of_fst regions _ hf
    · rw [if_neg hsev]
  · rw [if_neg hany]
    right
    have hnm : regionForCity (extractCity g.property) ∉ regions.map Prod.fst := by
      intro hmem
      rcases List.mem_map.mp hmem with ⟨p, hp, he⟩
      exact hany (List.any_eq_true.mpr ⟨p, hp, by simp [he]⟩)
    refine ⟨hnm, ?_⟩
    by_cases hsev : g.severity = "critical" ∨ g.severity = "warning"
    · rw [if_pos hsev]
      rw [keys_map_of_fst _ _ hf]
      simp
    · rw [if_neg hsev]
      simp

/-- Helper: `addRegion` keeps the region keys distinct. -/
theorem addRegion_keys_nodup (regions : List (String × RegionBucket)) (g : FlaggedGroup)
    (h : (regions.map Prod.fst).Nodup) :
    ((addRegion regions g).map Prod.fst).Nodup := by
  rcases addRegion_keys regions g with he | ⟨hnm, he⟩
  · rw [he]; exact h
  · rw [he]
    simp [List.nodup_append, h, hnm]

/-- Helper: the `regions` dict of the region grouping has distinct keys. -/
theorem regionsMap_keys_nodup (issues : List Issue) :
    ((regionsMap issues).map Prod.fst).Nodup := by
  have haux : ∀ (gs : List FlaggedGroup) (acc : List (String × RegionBucket)),
      (acc.map Prod.fst).Nodup → ((gs.foldl addRegion acc).map Prod.fst).Nodup := by
    intro gs
    induction gs with
    | nil => intro acc h; exact h
    | cons g t ih => intro acc h; exact ih _ (addRegion_keys_nodup acc g h)
  exact haux _ [] (by simp)

set_option maxRecDepth 40000 in
/-- Helper: a flagged group is filed, by one `addRegion` step, under its
region key in the matching severity list. -/
theorem addRegion_adds (regions : List (String × RegionBucket)) (g : FlaggedGroup)
    (hsev : g.severity = "critical" ∨ g.severity = "warning") :
    ∃ p ∈ addRegion regions g,
      p.1 = regionForCity (extractCity g.property) ∧
      (g ∈ p.2.critical ∨ g ∈ p.2.warning) := by
  simp only [addRegion]
  rw [if_pos hsev]
  have hex : ∃ q ∈ (if (regions.any fun p => decide (p.1 = regionForCity (extractCity g.property))) = true
        then regions
        else regions ++ [(regionForCity (extractCity g.property),
          ({ critical := [], warning := [] } : RegionBucket))]),
      q.1 = regionForCity (extractCity g.property) := by
    by_cases hany : (regions.any fun p => decide (p.1 = regionForCity (extractCity g.property))) = true
    · rw [if_pos hany]
      rcases List.any_eq_true.mp hany with ⟨q, hq, hq1⟩
      exact ⟨q, hq, by simpa using hq1⟩
    · rw [if_neg hany]
      refine ⟨(regionForCity (extractCity g.property),
        ({ critical := [], warning := [] } : RegionBucket)), ?_, rfl⟩
      exact List.mem_append_right _ (List.mem_singleton_self _)
  obtain ⟨q, hq, hq1⟩ := hex
  refine ⟨_, List.mem_map_of_mem _ hq, ?_⟩
  rw [if_pos hq1]
  refine ⟨hq1, ?_⟩
  rcases hsev with hc | hw
  · rw [if_pos hc]
    left
    exact List.mem_append_right _ (List.mem_singleton_self _)
  · rw [if_neg (by simp [hw])]
    right
    exact List.mem_append_right _ (List.mem_singleton_self _)

/-- Helper: one `addRegion` step preserves an existing filing. -/
theorem addRegion_preserves (regions : List (String × RegionBucket))
    (k : String) (g0 gnew : FlaggedGroup)
    (h : ∃ p ∈ regions, p.1 = k ∧ (g0 ∈ p.2.critical ∨ g0 ∈ p.2.warning)) :
    ∃ p ∈ addRegion regions gnew, p.1 = k ∧ (g0 ∈ p.2.critical ∨ g0 ∈ p.2.warning) := by
  obtain ⟨p, hp, hk, hmem⟩ := h
  simp only [addRegion]
  have hp1 : p ∈ (if (regions.any fun q => decide (q.1 = regionForCity (extractCity gnew.property))) = true
      then regions
      else regions ++ [(regionForCity (extractCity gnew.property),
        ({ critical := [], warning := [] } : RegionBucket))]) := by
    split_ifs
    · exact hp
    · exact List.mem_append_left _ hp
  by_cases hsev : gnew.severity = "critical" ∨ gnew.severity = "warning"
  · rw [if_pos hsev]
    refine ⟨_, List.mem_map_of_mem _ hp1, ?_⟩
    by_cases hc : p.1 = regionForCity (extractCity gnew.property)
    · rw [if_pos hc]
      refine ⟨hk, ?_⟩
      by_cases hcrit : gnew.severity = "critical"
      · rw [if_pos hcrit]
        rcases hmem with hm | hm
        · exact Or.inl (List.mem_append_left _ hm)
        · exact Or.inr hm
      · rw [if_neg hcrit]
        rcases hmem with hm | hm
        · exact Or.inl hm
        · exact Or.inr (List.mem_append_left _ hm)
    · rw [if_neg hc]
      exact ⟨hk, hmem⟩
  · rw [if_neg hsev]
    exact ⟨p, hp1, hk, hmem⟩

/-- Helper: the `addRegion` fold preserves an existing filing. -/
theorem foldl_addRegion_preserves (gs : List FlaggedGroup) :
    ∀ (acc : List (String × RegionBucket)) (k : String) (g0 : FlaggedGroup),
      (∃ p ∈ acc, p.1 = k ∧ (g0 ∈ p.2.critical ∨ g0 ∈ p.2.warning)) →
      ∃ p ∈ gs.foldl addRegion acc, p.1 = k ∧ (g0 ∈ p.2.critical ∨ g0 ∈ p.2.warning) := by
  induction gs with
  | nil => intro acc k g0 h; exact h
  | cons g t ih =>
    intro acc k g0 h
    exact ih _ k g0 (addRegion_preserves acc k g0 g h)

/-- Helper: every flagged group of the input list is filed by the
`addRegion` fold under its region key. -/
theorem foldl_addRegion_mem (gs : List FlaggedGroup) :
    ∀ (acc : List (String × RegionBucket)),
      (∀ g ∈ gs, g.severity = "critical" ∨ g.severity = "warning") →
      ∀ g ∈ gs, ∃ p ∈ gs.foldl addRegion acc,
        p.1 = regionForCity (extractCity g.property) ∧
        (g ∈ p.2.critical ∨ g ∈ p.2.warning) := by
  induction gs with
  | nil => intro acc _ g hg; cases hg
  | cons g0 t ih =>
    intro acc hsev g hg
    rcases List.mem_cons.mp hg with rfl | hgt
    · exact foldl_addRegion_preserves t _ _ _
        (addRegion_adds acc g (hsev g (List.mem_cons_self _ _)))
    · exact ih _ (fun g' hg' => hsev g' (List.mem_cons_of_mem _ hg')) g hgt

/-- Helper: in an association list with distinct keys, `find?` by the key
of a member returns that member. -/
theorem find?_of_mem_nodup (regions : List (String × RegionBucket))
    (p : String × RegionBucket) (hnd : (regions.map Prod.fst).Nodup)
    (hp : p ∈ regions) :
    regions.find? (fun q => q.1 = p.1) = some p := by
  induction regions with
  | nil => cases hp
  | cons a t ih =>
    rw [List.map_cons] at hnd
    obtain ⟨ha_not, hnd_t⟩ := List.nodup_cons.mp hnd
    rcases List.mem_cons.mp hp with rfl | hpt
    · exact List.find?_cons_of_pos _ (by simp)
    · have hne : ¬(a.1 = p.1) := by
        intro he
        exact ha_not (he ▸ List.mem_map_of_mem Prod.fst hpt)
      rw [List.find?_cons_of_neg _ (by simpa using hne)]
      exact ih hnd_t hpt

/-- Helper: the canonical-order fold never drops an accumulated entry. -/
theorem canonical_foldl_mono (ro : List String)
    (regions : List (String × RegionBucket)) :
    ∀ (acc : List (String × RegionBucket)) (x : String × RegionBucket), x ∈ acc →
      x ∈ ro.foldl (fun acc r =>
        match regions.find? (fun p => p.1 = r) with
        | some p => acc ++ [p]
        | none => acc) acc := by
  induction ro with
  | nil => intro acc x hx; exact hx
  | cons r t ih =>
    intro acc x hx
    simp only [List.foldl_cons]
    cases hf : regions.find? (fun p => p.1 = r) with
    | some p => exact ih _ x (List.mem_append_left _ hx)
    | none => exact ih _ x hx

/-- Helper: the canonical-order fold picks up every entry found under a
canonical name. -/
theorem canonical_foldl_mem (regions : List (String × RegionBucket))
    (p : String × RegionBucket) :
    ∀ (ro : List String) (acc : List (String × RegionBucket)) (r : String), r ∈ ro →
      regions.find? (fun q => q.1 = r) = some p →
      p ∈ ro.foldl (fun acc r =>
        match regions.find? (fun p => p.1 = r) with
        | some p => acc ++ [p]
        | none => acc) acc := by
  intro ro
  induction ro with
  | nil => intro acc r hr; cases hr
  | cons r0 t ih =>
    intro acc r hr hf
    simp only [List.foldl_cons]
    rcases List.mem_cons.mp hr with rfl | hrt
    · rw [hf]
      exact canonical_foldl_mono t regions _ p (List.mem_append_right _ (List.mem_singleton_self _))
    · cases hf0 : regions.find? (fun q => q.1 = r0) <;> exact ih _ r hrt hf

/-- Helper: the leftover fold never drops an accumulated entry. -/
theorem leftover_foldl_mono (l : List (String × RegionBucket)) :
    ∀ (acc : List (String × RegionBucket)) (x : String × RegionBucket), x ∈ acc →
      x ∈ l.foldl (fun acc p =>
        if acc.any (fun q => q.1 = p.1) then acc else acc ++ [p]) acc := by
  induction l with
  | nil => intro acc x hx; exact hx
  | cons p t ih =>
    intro acc x hx
    simp only [List.foldl_cons]
    split_ifs
    · exact ih _ x hx
    · exact ih _ x (List.mem_append_left _ hx)

/-- Helper: the leftover fold appends every input entry whose key is not
already present, when input keys are distinct. -/
theorem leftover_foldl_adds (l : List (String × RegionBucket)) :
    ∀ (acc : List (String × RegionBucket)) (p : String × RegionBucket), p ∈ l →
      (l.map Prod.fst).Nodup →
      ¬((acc.any fun q => decide (q.1 = p.1)) = true) →
      p ∈ l.foldl (fun acc p =>
        if acc.any (fun q => q.1 = p.1) then acc else acc ++ [p]) acc := by
  induction l with
  | nil => intro acc p hp; cases hp
  | cons a t ih =>
    intro acc p hp hnd hnot
    rw [List.map_cons] at hnd
    obtain ⟨ha_not, hnd_t⟩ := List.nodup_cons.mp hnd
    simp only [List.foldl_cons]
    rcases List.mem_cons.mp hp with rfl | hpt
    · rw [if_neg hnot]
      exact leftover_foldl_mono t _ p (List.mem_append_right _ (List.mem_singleton_self _))
    · have hane : ¬(a.1 = p.1) := by
        intro he
        exact ha_not (he ▸ List.mem_map_of_mem Prod.fst hpt)
      split_ifs with hin
      · exact ih acc p hpt hnd_t hnot
      · refine ih _ p hpt hnd_t ?_
        intro hany
        rcases List.any_eq_true.mp hany with ⟨q, hq, hq1⟩
        rcases List.mem_append.mp hq with hq' | hq'
        · exact hnot (List.any_eq_true.mpr ⟨q, hq', hq1⟩)
        · exact hane (by
            have := List.mem_singleton.mp hq'
            subst this
            simpa using hq1)

/-- Helper: with distinct keys, every `regions` entry survives the
reordering phase. -/
theorem orderRegions_mem (regions : List (String × RegionBucket))
    (hnd : (regions.map Prod.fst).Nodup)
    (p : String × RegionBucket) (hp : p ∈ regions) :
    p ∈ orderRegions regions := by
  unfold orderRegions
  by_cases hkey : p.1 ∈ region_order
  · refine leftover_foldl_mono _ _ p ?_
    exact canonical_foldl_mem regions p region_order [] p.1 hkey
      (find?_of_mem_nodup regions p hnd hp)
  · have hsorted_mem : p ∈ sortRegionsDesc regions :=
      (sortRegionsDesc_perm regions).mem_iff.mpr hp
    have hsorted_nd : ((sortRegionsDesc regions).map Prod.fst).Nodup :=
      (((sortRegionsDesc_perm regions).map Prod.fst).nodup_iff).mpr hnd
    refine leftover_foldl_adds _ _ p hsorted_mem hsorted_nd ?_
    intro hany
    rcases List.any_eq_true.mp hany with ⟨q, hq, hq1⟩
    have hq1' : q.1 = p.1 := by simpa using hq1
    have hqkeys : q.1 ∈ (region_order.foldl (fun acc r =>
        match regions.find? (fun p => p.1 = r) with
        | some p => acc ++ [p]
        | none => acc) []).map Prod.fst := List.mem_map_of_mem Prod.fst hq
    rw [canonical_foldl_keys region_order regions []] at hqkeys
    simp only [List.map_nil, List.nil_append] at hqkeys
    have : q.1 ∈ region_order := List.mem_of_mem_filter hqkeys
    exact hkey (hq1' ▸ this)

/-- Helper: an association list has a key match exactly when the key is
among its mapped keys. -/
theorem any_fst_eq_true_iff (l : List (String × RegionBucket)) (k : String) :
    (l.any fun q => decide (q.1 = k)) = true ↔ k ∈ l.map Prod.fst := by
  rw [List.any_eq_true]
  constructor
  · rintro ⟨q, hq, hq1⟩
    exact (by simpa using hq1 : q.1 = k) ▸ List.mem_map_of_mem Prod.fst hq
  · intro hk
    rcases List.mem_map.mp hk with ⟨q, hq, rfl⟩
    exact ⟨q, hq, by simp⟩

/-- Helper: filtering keys commutes with projecting keys. -/
theorem map_fst_filter (l : List (String × RegionBucket)) (q : String → Bool) :
    (l.map Prod.fst).filter q = (l.filter (fun p => q p.1)).map Prod.fst := by
  induction l with
  | nil => rfl
  | cons a t ih =>
    simp only [List.map_cons, List.filter_cons]
    by_cases hq : q a.1 = true
    · rw [if_pos hq, if_pos hq, List.map_cons, ih]
    · rw [if_neg hq, if_neg hq, ih]

/-- C7: flagged property groups are assigned to regions by a
case-insensitive city lookup defaulting to "Other" (the source lookup
equals the spec lookup and every flagged group is filed under that key),
and the output keys are the canonical region order restricted to regions
with entries followed by the remaining regions sorted descending by
total critical-plus-warning count. -/
theorem c7_region_grouping_and_ordering (issues : List Issue) :
    (∀ city, regionForCity city = regionForCitySpec city) ∧
    (∀ g ∈ get_flagged_properties_grouped issues,
      ∃ p ∈ get_properties_by_region_and_severity issues,
        p.1 = regionForCitySpec (extractCity g.property) ∧
        (g ∈ p.2.critical ∨ g ∈ p.2.warning)) ∧
    ((get_properties_by_region_and_severity issues).map Prod.fst
      = region_order.filter (fun r => (regionsMap issues).any (fun p => p.1 = r)) ++
        ((sortRegionsDesc (regionsMap issues)).filter
          (fun p => !(decide (p.1 ∈ region_order)))).map Prod.fst) ∧
    ((sortRegionsDesc (regionsMap issues)).filter
      (fun p => !(decide (p.1 ∈ region_order)))).Pairwise
        (fun a b => regionTotal b.2 ≤ regionTotal a.2) := by
  have hsorted_nd : ((sortRegionsDesc (regionsMap issues)).map Prod.fst).Nodup :=
    (((sortRegionsDesc_perm (regionsMap issues)).map Prod.fst).nodup_iff).mpr
      (regionsMap_keys_nodup issues)
  refine ⟨regionForCity_eq_spec, ?_, ?_, ?_⟩
  · intro g hg
    have hne : ¬((get_flagged_properties_grouped issues).isEmpty = true) := by
      intro hE
      rw [List.isEmpty_iff.mp hE] at hg
      cases hg
    have hsev : ∀ g' ∈ get_flagged_properties_grouped issues,
        g'.severity = "critical" ∨ g'.severity = "warning" := by
      intro g' hg'
      have h2 := (foldl_addFlaggedIssue_inv issues [] (by intro x hx; cases hx) g' hg').2
      by_cases hcrit : (g'.aspects.any fun a => a.status == "critical") = true
      · rw [h2, if_pos hcrit]
        exact Or.inl rfl
      · rw [h2, if_neg hcrit]
        exact Or.inr rfl
    obtain ⟨p, hp, hk, hmem⟩ :=
      foldl_addRegion_mem (get_flagged_properties_grouped issues) [] hsev g hg
    have hord : p ∈ orderRegions (regionsMap issues) :=
      orderRegions_mem _ (regionsMap_keys_nodup issues) p hp
    refine ⟨p, ?_, ?_, hmem⟩
    · unfold get_properties_by_region_and_severity
      rw [if_neg hne]
      exact hord
    · rw [hk, regionForCity_eq_spec]
  · by_cases hE : (get_flagged_properties_grouped issues).isEmpty = true
    · have hnil : get_flagged_properties_grouped issues = [] := List.isEmpty_iff.mp hE
      have hrm : regionsMap issues = [] := by
        rw [regionsMap, hnil]
        rfl
      unfold get_properties_by_region_and_severity
      rw [if_pos hE, hrm]
      simp [sortRegionsDesc, stableSort]
    · unfold get_properties_by_region_and_severity
      rw [if_neg hE]
      show (orderRegions (regionsMap issues)).map Prod.fst = _
      simp only [orderRegions]
      rw [leftover_foldl_keys (sortRegionsDesc (regionsMap issues)) _ hsorted_nd]
      rw [canonical_foldl_keys region_order (regionsMap issues) []]
      simp only [List.map_nil, List.nil_append]
      congr 1
      rw [map_fst_filter]
      congr 1
      apply List.filter_congr
      intro p hp
      have hpk : p.1 ∈ (regionsMap issues).map Prod.fst := by
        refine List.mem_map_of_mem Prod.fst ?_
        exact (sortRegionsDesc_perm (regionsMap issues)).mem_iff.mp hp
      have hpresent : ((regionsMap issues).any fun q => decide (q.1 = p.1)) = true :=
        (any_fst_eq_true_iff _ _).mpr hpk
      by_cases hkro : p.1 ∈ region_order
      · have hmemc : p.1 ∈ region_order.filter
            (fun r => (regionsMap issues).any (fun q => decide (q.1 = r))) :=
          List.mem_filter.mpr ⟨hkro, hpresent⟩
        have hany : ((region_order.foldl (fun acc r =>
            match (regionsMap issues).find? (fun p => p.1 = r) with
            | some p => acc ++ [p]
            | none => acc) []).any fun q => decide (q.1 = p.1)) = true := by
          rw [any_fst_eq_true_iff, canonical_foldl_keys region_order (regionsMap issues) []]
          simpa using hmemc
        simp [hany, hkro]
      · have hany : ((region_order.foldl (fun acc r =>
            match (regionsMap issues).find? (fun p => p.1 = r) with
            | some p => acc ++ [p]
            | none => acc) []).any fun q => decide (q.1 = p.1)) = false := by
          apply eq_false_of_ne_true
          intro htrue
          rw [any_fst_eq_true_iff, canonical_foldl_keys region_order (regionsMap issues) []] at htrue
          simp only [List.map_nil, List.nil_append] at htrue
          exact hkro (List.mem_of_mem_filter htrue)
        simp [hany, hkro]
  · exact List.Pairwise.sublist (List.filter_sublist _) (sortRegionsDesc_sorted _)

set_option maxRecDepth 40000 in
/-- Witness for C7: the case-insensitive lookup instantiated at the
lowercase city name "boston" via the theorem. -/
theorem c7_witness : regionForCity "boston" = regionForCitySpec "boston" :=
  (c7_region_grouping_and_ordering []).1 "boston"
